import Mathlib

/-!
Shallow embedding of `src/snowflake_client/client.py`.

The Python class `SnowflakeClient` holds a dict `connection_params` and an
optional connection handle `connection`.  We embed the client state as a
`ClientState`, the external Snowflake driver as a `Driver` record of
deterministic response functions, and each method as a state-passing
function returning `(result, newState, eventTrace)` where the trace records
every call made to the driver (plus a ghost marker for entry into the
`disconnect` method, used to count method invocations).
-/

namespace SnowflakeClientModel

/-- A result row: mapping from column name to (integer) value.  The claims
under study never inspect row contents, only their flow. -/
abbrev Row : Type := List (String × Int)

/-- A parameter mapping (Python `Dict[str, str]`), embedded as an
association list with unique keys understood. -/
abbrev StrDict : Type := List (String × String)

/-- Python dict lookup `m.get(k, None)`: first binding of `k`, if any. -/
def dictGet (m : StrDict) (k : String) : Option String :=
  (m.find? (fun p => p.1 == k)).map (fun p => p.2)

/-- Python truthiness of an `Optional[str]`: `None` and `""` are falsy. -/
def truthy : Option String → Bool
  | none => false
  | some s => s ≠ ""

/-- Python truthiness of an `Optional[Dict]`: `None` and `{}` are falsy;
returns the dict exactly when it is truthy (mirrors `if params:`). -/
def truthyDict : Option StrDict → Option StrDict
  | none => none
  | some l => if l.isEmpty then none else some l

/-- Events observable at the driver boundary, in call order.
`disconnectCall` is a ghost marker for entry into `SnowflakeClient.disconnect`. -/
inductive Event where
  | connectCall (ps : StrDict) : Event
  | connClose (h : Nat) : Event
  | disconnectCall : Event
  | cursorOpen (h : Nat) : Event
  | execute (q : String) (ps : Option StrDict) : Event
  | fetchall : Event
  | cursorClose : Event
deriving DecidableEq, Repr

/-- The external driver (`snowflake.connector`), as deterministic response
functions: what `connect`, `cursor.execute`, `cursor.fetchall` and
`connection.close` return or raise.  A handle is a `Nat` identifier. -/
structure Driver where
  connectResult : StrDict → Except String Nat
  executeResult : String → Option StrDict → Except String Unit
  fetchResult : String → Except String (List Row)
  closeResult : Nat → Except String Unit

/-- The mutable state of a `SnowflakeClient` instance:
`self.connection_params` and `self.connection`. -/
structure ClientState where
  connection_params : StrDict
  connection : Option Nat
deriving DecidableEq, Repr

/-- Embeds `if x: params[key] = x` — the optional-field step of `__init__`:
adds the binding exactly when the value is truthy. -/
def optField (key : String) (v : Option String) : StrDict :=
  if truthy v then [(key, v.getD "")] else []

/-- Embeds `SnowflakeClient.__init__`: stores the three required fields,
then each optional field only when truthy; `self.connection = None`. -/
def snowflakeClientInit (account user password : String)
    (warehouse database schema role : Option String) : ClientState :=
  { connection_params :=
      [("account", account), ("user", user), ("password", password)]
        ++ optField "warehouse" warehouse
        ++ optField "database" database
        ++ optField "schema" schema
        ++ optField "role" role,
    connection := none }

/-- Embeds `SnowflakeClient.connect`: calls the driver's connect with the
stored params; on success assigns the handle; on failure the exception is
logged and re-raised — the assignment to `self.connection` never happens,
so the state is left exactly as it was. -/
def connect (d : Driver) (s : ClientState) :
    Except String Unit × ClientState × List Event :=
  match d.connectResult s.connection_params with
  | .ok h => (.ok (), { s with connection := some h }, [.connectCall s.connection_params])
  | .error e => (.error e, s, [.connectCall s.connection_params])

/-- Embeds `SnowflakeClient.disconnect`: `if self.connection:` close it and
clear the reference; if `close()` raises, the clearing is skipped and the
exception propagates; no-op when no handle exists. -/
def disconnect (d : Driver) (s : ClientState) :
    Except String Unit × ClientState × List Event :=
  match s.connection with
  | none => (.ok (), s, [.disconnectCall])
  | some h =>
    match d.closeResult h with
    | .ok _ => (.ok (), { s with connection := none }, [.disconnectCall, .connClose h])
    | .error e => (.error e, s, [.disconnectCall, .connClose h])

/-- The `try:` block of `execute_query` (lines 93–114): re-check the
handle, open a `DictCursor`, execute (with params exactly when the params
dict is truthy), fetch all rows, close the cursor, return the rows.  Any
driver exception propagates; the cursor is closed only after a successful
fetch.  The client state is not modified here. -/
def query_try_block (d : Driver) (s : ClientState) (query : String)
    (params : Option StrDict) : Except String (List Row) × List Event :=
  match s.connection with
  | none => (.error "No connection to Snowflake", [])
  | some h =>
    let pn := truthyDict params
    match d.executeResult query pn with
    | .error e => (.error e, [.cursorOpen h, .execute query pn])
    | .ok _ =>
      match d.fetchResult query with
      | .error e => (.error e, [.cursorOpen h, .execute query pn, .fetchall])
      | .ok rows =>
        (.ok rows, [.cursorOpen h, .execute query pn, .fetchall, .cursorClose])

/-- Lines 85–86 of `execute_query`: `if not self.connection: self.connect()`. -/
def lazyStep (d : Driver) (s : ClientState) :
    Except String Unit × ClientState × List Event :=
  if s.connection.isNone then connect d s else (.ok (), s, [])

/-- Embeds `execute_query(query, params)` with `init=None` (the shape of
the recursive calls made from `initialize_context`): lazy connect, then
the try block. -/
def execute_query_noinit (d : Driver) (s : ClientState) (query : String)
    (params : Option StrDict) :
    Except String (List Row) × ClientState × List Event :=
  match lazyStep d s with
  | (.error e, s1, ev1) => (.error e, s1, ev1)
  | (.ok _, s1, ev1) =>
    let r := query_try_block d s1 query params
    (r.1, s1, ev1 ++ r.2)

/-- Embeds `SnowflakeClient.initialize_context`: if `database` is truthy,
run `USE DATABASE {database}` through `execute_query`; then if `schema` is
truthy, run `USE SCHEMA {schema}` likewise; exceptions are logged and
re-raised (so the schema step is skipped when the database step raised). -/
def initialize_context (d : Driver) (s : ClientState)
    (database schema : Option String) :
    Except String Unit × ClientState × List Event :=
  match (if truthy database then
           execute_query_noinit d s ("USE DATABASE " ++ database.getD "") none
         else (.ok [], s, [])) with
  | (.error e, s1, ev1) => (.error e, s1, ev1)
  | (.ok _, s1, ev1) =>
    match (if truthy schema then
             execute_query_noinit d s1 ("USE SCHEMA " ++ schema.getD "") none
           else (.ok [], s1, [])) with
    | (.error e, s2, ev2) => (.error e, s2, ev1 ++ ev2)
    | (.ok _, s2, ev2) => (.ok (), s2, ev1 ++ ev2)

/-- Embeds `SnowflakeClient.execute_query(query, params, init)`: lazy
connect, then `if init:` set the context from `init.get("database")` and
`init.get("schema")`, then the try block.  A falsy `init` (absent or empty
dict) takes the plain path. -/
def execute_query (d : Driver) (s : ClientState) (query : String)
    (params : Option StrDict) (init : Option StrDict) :
    Except String (List Row) × ClientState × List Event :=
  match truthyDict init with
  | none => execute_query_noinit d s query params
  | some m =>
    match lazyStep d s with
    | (.error e, s1, ev1) => (.error e, s1, ev1)
    | (.ok _, s1, ev1) =>
      match initialize_context d s1 (dictGet m "database") (dictGet m "schema") with
      | (.error e, s2, ev2) => (.error e, s2, ev1 ++ ev2)
      | (.ok _, s2, ev2) =>
        let r := query_try_block d s2 query params
        (r.1, s2, ev1 ++ ev2 ++ r.2)

/-- Embeds `SnowflakeClient.__enter__`: connect. -/
def clientEnter (d : Driver) (s : ClientState) :
    Except String Unit × ClientState × List Event :=
  connect d s

/-- Embeds `SnowflakeClient.__exit__`: disconnect, whatever the exception
info is. -/
def clientExit (d : Driver) (s : ClientState) :
    Except String Unit × ClientState × List Event :=
  disconnect d s

/-- The `with client:` protocol: `__enter__` (its exception propagates and
skips everything else), then the body, then `__exit__` runs
unconditionally; `__exit__` returns `None` (falsy) so a body exception is
re-raised after the disconnect. -/
def withClient (d : Driver) (s : ClientState)
    (body : ClientState → Except String Unit × ClientState × List Event) :
    Except String Unit × ClientState × List Event :=
  match clientEnter d s with
  | (.error e, s1, ev1) => (.error e, s1, ev1)
  | (.ok _, s1, ev1) =>
    match body s1 with
    | (rb, s2, ev2) =>
      match clientExit d s2 with
      | (rx, s3, ev3) =>
        ((match rx with | .error e => .error e | .ok _ => rb), s3, ev1 ++ ev2 ++ ev3)

/-- Embeds `create_snowflake_client_from_env`: the environment is a map
from variable name to optional value (`os.getenv`).  Reads the five
variables, checks the three required ones for truthiness with the exact
error messages of the source, and builds the client passing only
`warehouse` and `role` as optional fields. -/
def create_snowflake_client_from_env (env : String → Option String) :
    Except String ClientState :=
  let account := env "SNOWFLAKE_ACCOUNT"
  let user := env "SNOWFLAKE_USER"
  let password := env "SNOWFLAKE_PASSWORD"
  let warehouse := env "SNOWFLAKE_WAREHOUSE"
  let role := env "SNOWFLAKE_ROLE"
  if ¬ truthy account then .error "SNOWFLAKE_ACCOUNT is not set"
  else if ¬ truthy user then .error "SNOWFLAKE_USER is not set"
  else if ¬ truthy password then .error "SNOWFLAKE_PASSWORD is not set"
  else .ok (snowflakeClientInit (account.getD "") (user.getD "") (password.getD "")
    warehouse none none role)

/-- Whether an `Except` result is a success. -/
def exceptOk : Except String α → Bool
  | .ok _ => true
  | .error _ => false

/-- Count the driver-connect calls in a trace. -/
def countConnect (tr : List Event) : Nat :=
  (tr.filter (fun e => match e with | .connectCall _ => true | _ => false)).length

/-- Count the entries into the `disconnect` method in a trace. -/
def countDisconnect (tr : List Event) : Nat :=
  (tr.filter (fun e => match e with | .disconnectCall => true | _ => false)).length

/-- Count the cursor-close calls in a trace. -/
def countCursorClose (tr : List Event) : Nat :=
  (tr.filter (fun e => match e with | .cursorClose => true | _ => false)).length

/-- The statements issued to the driver, in order. -/
def executedQueries (tr : List Event) : List String :=
  tr.filterMap (fun e => match e with | .execute q _ => some q | _ => none)

/-- Last event of a trace, if any. -/
def lastEvent : List Event → Option Event
  | [] => none
  | [e] => some e
  | _ :: e :: es => lastEvent (e :: es)

/-- A driver on which every operation succeeds. -/
def dOk : Driver where
  connectResult := fun _ => .ok 1
  executeResult := fun _ _ => .ok ()
  fetchResult := fun _ => .ok [[("A", (1 : Int))]]
  closeResult := fun _ => .ok ()

/-- A driver whose connect always raises. -/
def dConnectFail : Driver where
  connectResult := fun _ => .error "network unreachable"
  executeResult := fun _ _ => .ok ()
  fetchResult := fun _ => .ok []
  closeResult := fun _ => .ok ()

/-- A driver whose connection-close always raises. -/
def dCloseFail : Driver where
  connectResult := fun _ => .ok 1
  executeResult := fun _ _ => .ok ()
  fetchResult := fun _ => .ok []
  closeResult := fun _ => .error "close failed"

/-- Minimal stored connection parameters for concrete clients. -/
def baseParams : StrDict := [("account", "a"), ("user", "u"), ("password", "p")]

/-- An Unconnected client. -/
def sUn : ClientState := { connection_params := baseParams, connection := none }

/-- A Connected client holding handle 7. -/
def sConn : ClientState := { connection_params := baseParams, connection := some 7 }

/-- An environment with the three required variables set, plus
SNOWFLAKE_DATABASE and SNOWFLAKE_SCHEMA. -/
def env0 : String → Option String := fun k =>
  if k = "SNOWFLAKE_ACCOUNT" then some "a"
  else if k = "SNOWFLAKE_USER" then some "u"
  else if k = "SNOWFLAKE_PASSWORD" then some "p"
  else if k = "SNOWFLAKE_DATABASE" then some "dbx"
  else if k = "SNOWFLAKE_SCHEMA" then some "scx"
  else none

/-- The same environment as `env0` but without SNOWFLAKE_DATABASE and
SNOWFLAKE_SCHEMA. -/
def env1 : String → Option String := fun k =>
  if k = "SNOWFLAKE_ACCOUNT" then some "a"
  else if k = "SNOWFLAKE_USER" then some "u"
  else if k = "SNOWFLAKE_PASSWORD" then some "p"
  else none

/-- A scope body that raises. -/
def bodyRaise : ClientState → Except String Unit × ClientState × List Event :=
  fun st => (.error "boom", st, [])

lemma countConnect_nil : countConnect [] = 0 := rfl

lemma countDisconnect_nil : countDisconnect [] = 0 := rfl

lemma countConnect_cons (e : Event) (t : List Event) :
    countConnect (e :: t)
      = (match e with | Event.connectCall _ => 1 | _ => 0) + countConnect t := by
  rcases e <;> simp [countConnect, List.filter_cons, Nat.add_comm]

lemma countConnect_append (t1 t2 : List Event) :
    countConnect (t1 ++ t2) = countConnect t1 + countConnect t2 := by
  simp [countConnect, List.filter_append]

lemma countDisconnect_append (t1 t2 : List Event) :
    countDisconnect (t1 ++ t2) = countDisconnect t1 + countDisconnect t2 := by
  simp [countDisconnect, List.filter_append]

lemma countConnect_query_try_block (d : Driver) (s : ClientState)
    (q : String) (p : Option StrDict) :
    countConnect (query_try_block d s q p).2 = 0 := by
  rcases hs : s.connection with _ | h
  · simp [query_try_block, hs, countConnect]
  · rcases he : d.executeResult q (truthyDict p) with e | u
    · simp [query_try_block, hs, he, countConnect]
    · rcases hf : d.fetchResult q with e | rows <;>
        simp [query_try_block, hs, he, hf, countConnect]

lemma execute_query_noinit_connected (d : Driver) (s : ClientState)
    (q : String) (p : Option StrDict) (h : Nat) (hs : s.connection = some h) :
    (execute_query_noinit d s q p).2.1 = s ∧
    countConnect (execute_query_noinit d s q p).2.2 = 0 := by
  have hl : lazyStep d s = (.ok (), s, []) := by simp [lazyStep, hs]
  constructor
  · simp [execute_query_noinit, hl]
  · simp only [execute_query_noinit, hl, List.nil_append]
    exact countConnect_query_try_block d s q p

lemma initialize_context_connected (d : Driver) (s : ClientState)
    (dbo sco : Option String) (h : Nat) (hs : s.connection = some h) :
    (initialize_context d s dbo sco).2.1 = s ∧
    countConnect (initialize_context d s dbo sco).2.2 = 0 := by
  by_cases h1 : truthy dbo
  · rcases hq1 : execute_query_noinit d s ("USE DATABASE " ++ dbo.getD "") none
      with ⟨r1, s1, ev1⟩
    have hn1 := execute_query_noinit_connected d s ("USE DATABASE " ++ dbo.getD "") none h hs
    rw [hq1] at hn1
    obtain ⟨hs1, hc1⟩ := hn1
    simp only at hs1 hc1
    rw [hs1] at hq1
    rcases r1 with e1 | v1
    · simp [initialize_context, h1, hq1, hc1]
    · by_cases h2 : truthy sco
      · rcases hq2 : execute_query_noinit d s ("USE SCHEMA " ++ sco.getD "") none
          with ⟨r2, s2, ev2⟩
        have hn2 := execute_query_noinit_connected d s ("USE SCHEMA " ++ sco.getD "") none h hs
        rw [hq2] at hn2
        obtain ⟨hs2, hc2⟩ := hn2
        simp only at hs2 hc2
        rw [hs2] at hq2
        rcases r2 with e2 | v2 <;>
          simp [initialize_context, h1, h2, hq1, hq2, countConnect_append, hc1, hc2]
      · simp [initialize_context, h1, h2, hq1, countConnect_append, hc1, countConnect_nil]
  · by_cases h2 : truthy sco
    · rcases hq2 : execute_query_noinit d s ("USE SCHEMA " ++ sco.getD "") none
        with ⟨r2, s2, ev2⟩
      have hn2 := execute_query_noinit_connected d s ("USE SCHEMA " ++ sco.getD "") none h hs
      rw [hq2] at hn2
      obtain ⟨hs2, hc2⟩ := hn2
      simp only at hs2 hc2
      rw [hs2] at hq2
      rcases r2 with e2 | v2 <;>
        simp [initialize_context, h1, h2, hq2, countConnect_append, hc2, countConnect_nil]
    · simp [initialize_context, h1, h2, countConnect_nil]

lemma disconnect_trace_counts (d : Driver) (s : ClientState) :
    countDisconnect (disconnect d s).2.2 = 1 ∧
    countConnect (disconnect d s).2.2 = 0 := by
  rcases hs : s.connection with _ | h
  · simp [disconnect, hs, countDisconnect, countConnect]
  · rcases hc : d.closeResult h with e | u <;>
      simp [disconnect, hs, hc, countDisconnect, countConnect]

/-- C1, counterexample: a Connected client (handle 7) on which `connect()`
fails does NOT end in the Unconnected state — it still holds handle 7,
contrary to the claim that any state moves to Unconnected on connect
failure. -/
theorem connect_failure_connected_keeps_handle :
    exceptOk (connect dConnectFail sConn).1 = false ∧
    (connect dConnectFail sConn).2.1.connection = some 7 ∧
    (connect dConnectFail sConn).2.1.connection ≠ none := by
  refine ⟨rfl, rfl, by decide⟩

/-- C1, amended: when the driver's connect raises, the handle reference is
never assigned and the whole client state is unchanged — an Unconnected
client stays Unconnected with no handle, while a previously Connected
client still holds its old handle. -/
theorem connect_failure_preserves_state (d : Driver) (s : ClientState) (e : String)
    (h : d.connectResult s.connection_params = .error e) :
    connect d s = (.error e, s, [.connectCall s.connection_params]) := by
  simp [connect, h]

/-- Witness for `connect_failure_preserves_state` at a concrete failing
driver and a Connected client. -/
theorem connect_failure_preserves_state_witness :
    connect dConnectFail sConn
      = (.error "network unreachable", sConn, [.connectCall sConn.connection_params]) :=
  connect_failure_preserves_state dConnectFail sConn "network unreachable" rfl

/-- C2: in `execute_query` the cursor is closed exactly when the
execute-and-fetch succeeds — the trace contains one cursor-close on
success and none on any failure, and on success the close is the last
driver event, i.e. it happens before the rows are returned. -/
theorem execute_query_cursor_closed_iff_success (d : Driver) (s : ClientState)
    (q : String) (p : Option StrDict) :
    countCursorClose (execute_query d s q p none).2.2
      = (if exceptOk (execute_query d s q p none).1 = true then 1 else 0) ∧
    (exceptOk (execute_query d s q p none).1 = true ↔
      lastEvent (execute_query d s q p none).2.2 = some Event.cursorClose) := by
  have hq : execute_query d s q p none = execute_query_noinit d s q p := by
    simp [execute_query, truthyDict]
  rw [hq]
  rcases hs : s.connection with _ | h
  · rcases hc : d.connectResult s.connection_params with e | hh
    · simp [execute_query_noinit, lazyStep, hs, connect, hc, query_try_block,
        countCursorClose, exceptOk, lastEvent]
    · rcases he : d.executeResult q (truthyDict p) with e | u
      · simp [execute_query_noinit, lazyStep, hs, connect, hc, query_try_block, he,
          countCursorClose, exceptOk, lastEvent]
      · rcases hf : d.fetchResult q with e | rows <;>
          simp [execute_query_noinit, lazyStep, hs, connect, hc, query_try_block, he, hf,
            countCursorClose, exceptOk, lastEvent]
  · rcases he : d.executeResult q (truthyDict p) with e | u
    · simp [execute_query_noinit, lazyStep, hs, query_try_block, he,
        countCursorClose, exceptOk, lastEvent]
    · rcases hf : d.fetchResult q with e | rows <;>
        simp [execute_query_noinit, lazyStep, hs, query_try_block, he, hf,
          countCursorClose, exceptOk, lastEvent]

/-- C3: `create_snowflake_client_from_env` reads only the five variables
SNOWFLAKE_ACCOUNT/USER/PASSWORD/WAREHOUSE/ROLE — two environments agreeing
on those five yield identical results — and a successfully built client
never stores a database or schema connection parameter. -/
theorem create_from_env_reads_only_five (env : String → Option String) :
    (∀ st, create_snowflake_client_from_env env = .ok st →
      "database" ∉ st.connection_params.map Prod.fst ∧
      "schema" ∉ st.connection_params.map Prod.fst) ∧
    (∀ env2 : String → Option String,
      env "SNOWFLAKE_ACCOUNT" = env2 "SNOWFLAKE_ACCOUNT" →
      env "SNOWFLAKE_USER" = env2 "SNOWFLAKE_USER" →
      env "SNOWFLAKE_PASSWORD" = env2 "SNOWFLAKE_PASSWORD" →
      env "SNOWFLAKE_WAREHOUSE" = env2 "SNOWFLAKE_WAREHOUSE" →
      env "SNOWFLAKE_ROLE" = env2 "SNOWFLAKE_ROLE" →
      create_snowflake_client_from_env env
        = create_snowflake_client_from_env env2) := by
  constructor
  · intro st hok
    have hst : st = snowflakeClientInit ((env "SNOWFLAKE_ACCOUNT").getD "")
        ((env "SNOWFLAKE_USER").getD "") ((env "SNOWFLAKE_PASSWORD").getD "")
        (env "SNOWFLAKE_WAREHOUSE") none none (env "SNOWFLAKE_ROLE") := by
      by_cases h1 : truthy (env "SNOWFLAKE_ACCOUNT") <;>
        by_cases h2 : truthy (env "SNOWFLAKE_USER") <;>
        by_cases h3 : truthy (env "SNOWFLAKE_PASSWORD") <;>
        simp [create_snowflake_client_from_env, h1, h2, h3] at hok <;>
        exact hok.symm
    subst hst
    constructor <;> simp [snowflakeClientInit, optField, truthy]
  · intro env2 h1 h2 h3 h4 h5
    simp only [create_snowflake_client_from_env, h1, h2, h3, h4, h5]

/-- Witness for `create_from_env_reads_only_five`: an environment with
SNOWFLAKE_DATABASE and SNOWFLAKE_SCHEMA set builds a client without
database or schema params, and agrees with the environment lacking them. -/
theorem create_from_env_reads_only_five_witness :
    ("database" ∉ (snowflakeClientInit "a" "u" "p" none none none none).connection_params.map Prod.fst ∧
      "schema" ∉ (snowflakeClientInit "a" "u" "p" none none none none).connection_params.map Prod.fst) ∧
    create_snowflake_client_from_env env0 = create_snowflake_client_from_env env1 :=
  ⟨(create_from_env_reads_only_five env0).1
      (snowflakeClientInit "a" "u" "p" none none none none) rfl,
   (create_from_env_reads_only_five env0).2 env1 rfl rfl rfl rfl rfl⟩

/-- C4: on a connected client with a driver whose execute and fetch
succeed, `execute_query` with an init mapping supplying a (truthy)
database and schema issues exactly three statements in order: the
string-interpolated `USE DATABASE`, the string-interpolated `USE SCHEMA`,
then the original query text. -/
theorem execute_query_init_statement_order (d : Driver) (s : ClientState)
    (q : String) (p : Option StrDict) (m : StrDict) (dbName scName : String) (h : Nat)
    (hs : s.connection = some h)
    (hdb : dictGet m "database" = some dbName)
    (hsc : dictGet m "schema" = some scName)
    (hD : dbName ≠ "") (hS : scName ≠ "")
    (hex : ∀ q' p', d.executeResult q' p' = .ok ())
    (hft : ∀ q', exceptOk (d.fetchResult q') = true) :
    executedQueries (execute_query d s q p (some m)).2.2
      = ["USE DATABASE " ++ dbName, "USE SCHEMA " ++ scName, q] := by
  have hm : m.isEmpty = false := by
    cases m with
    | nil => simp [dictGet] at hdb
    | cons a t => rfl
  have hti : truthyDict (some m) = some m := by simp [truthyDict, hm]
  have hl : lazyStep d s = (.ok (), s, []) := by simp [lazyStep, hs]
  rcases hf1 : d.fetchResult ("USE DATABASE " ++ dbName) with e1 | rows1
  · have := hft ("USE DATABASE " ++ dbName); rw [hf1] at this; simp [exceptOk] at this
  rcases hf2 : d.fetchResult ("USE SCHEMA " ++ scName) with e2 | rows2
  · have := hft ("USE SCHEMA " ++ scName); rw [hf2] at this; simp [exceptOk] at this
  rcases hf3 : d.fetchResult q with e3 | rows3
  · have := hft q; rw [hf3] at this; simp [exceptOk] at this
  have e1 : execute_query_noinit d s ("USE DATABASE " ++ dbName) none
      = (.ok rows1, s,
         [.cursorOpen h, .execute ("USE DATABASE " ++ dbName) none,
          .fetchall, .cursorClose]) := by
    simp [execute_query_noinit, hl, query_try_block, hs, truthyDict, hex, hf1]
  have e2 : execute_query_noinit d s ("USE SCHEMA " ++ scName) none
      = (.ok rows2, s,
         [.cursorOpen h, .execute ("USE SCHEMA " ++ scName) none,
          .fetchall, .cursorClose]) := by
    simp [execute_query_noinit, hl, query_try_block, hs, truthyDict, hex, hf2]
  have eic : initialize_context d s (some dbName) (some scName)
      = (.ok (), s,
         [.cursorOpen h, .execute ("USE DATABASE " ++ dbName) none,
          .fetchall, .cursorClose,
          .cursorOpen h, .execute ("USE SCHEMA " ++ scName) none,
          .fetchall, .cursorClose]) := by
    simp [initialize_context, truthy, hD, hS, e1, e2]
  have e3 : query_try_block d s q p
      = (.ok rows3,
         [.cursorOpen h, .execute q (truthyDict p), .fetchall, .cursorClose]) := by
    simp [query_try_block, hs, hex, hf3]
  have hE : execute_query d s q p (some m)
      = (.ok rows3, s,
         [.cursorOpen h, .execute ("USE DATABASE " ++ dbName) none,
          .fetchall, .cursorClose,
          .cursorOpen h, .execute ("USE SCHEMA " ++ scName) none,
          .fetchall, .cursorClose,
          .cursorOpen h, .execute q (truthyDict p), .fetchall, .cursorClose]) := by
    simp [execute_query, hti, hl, hdb, hsc, eic, e3]
  rw [hE]
  simp [executedQueries]

/-- Witness for `execute_query_init_statement_order` on a concrete driver,
connected client and init mapping with database D and schema S. -/
theorem execute_query_init_statement_order_witness :
    executedQueries
        (execute_query dOk sConn "SELECT 1" none
          (some [("database", "D"), ("schema", "S")])).2.2
      = ["USE DATABASE " ++ "D", "USE SCHEMA " ++ "S", "SELECT 1"] :=
  execute_query_init_statement_order dOk sConn "SELECT 1" none
    [("database", "D"), ("schema", "S")] "D" "S" 7 rfl rfl rfl
    (by decide) (by decide) (fun _ _ => rfl) (fun _ => rfl)

/-- C5: `execute_query` invokes the driver connect exactly once when the
client has no handle and never when it already holds one; on the
Unconnected path the connect call is the very first driver event, before
any statement is executed. -/
theorem execute_query_lazy_connect (d : Driver) (s : ClientState)
    (q : String) (p init : Option StrDict) :
    countConnect (execute_query d s q p init).2.2
      = (if s.connection.isNone then 1 else 0) ∧
    (s.connection = none →
      (execute_query d s q p init).2.2.head?
        = some (.connectCall s.connection_params)) := by
  rcases hi : truthyDict init with _ | m
  · rcases hs : s.connection with _ | h
    · rcases hc : d.connectResult s.connection_params with e | hh
      · have hE : execute_query d s q p init
            = (.error e, s, [.connectCall s.connection_params]) := by
          simp [execute_query, hi, execute_query_noinit, lazyStep, hs, connect, hc]
        rw [hE]
        exact ⟨by simp [countConnect, hs], fun _ => rfl⟩
      · have hqt := countConnect_query_try_block d { s with connection := some hh } q p
        have hE : execute_query d s q p init
            = ((query_try_block d { s with connection := some hh } q p).1,
               { s with connection := some hh },
               Event.connectCall s.connection_params
                 :: (query_try_block d { s with connection := some hh } q p).2) := by
          simp [execute_query, hi, execute_query_noinit, lazyStep, hs, connect, hc]
        rw [hE]
        refine ⟨?_, fun _ => rfl⟩
        show countConnect (Event.connectCall s.connection_params
          :: (query_try_block d { s with connection := some hh } q p).2) = _
        rw [countConnect_cons, hqt]
        simp [hs]
    · have hqt := countConnect_query_try_block d s q p
      have hE : execute_query d s q p init
          = ((query_try_block d s q p).1, s, (query_try_block d s q p).2) := by
        simp [execute_query, hi, execute_query_noinit, lazyStep, hs]
      rw [hE]
      exact ⟨by simp [hs, hqt], fun hn => by simp_all⟩
  · rcases hs : s.connection with _ | h
    · rcases hc : d.connectResult s.connection_params with e | hh
      · have hE : execute_query d s q p init
            = (.error e, s, [.connectCall s.connection_params]) := by
          simp [execute_query, hi, lazyStep, hs, connect, hc]
        rw [hE]
        exact ⟨by simp [countConnect, hs], fun _ => rfl⟩
      · have hcon : connect d s
            = (.ok (), { s with connection := some hh },
               [.connectCall s.connection_params]) := by
          simp [connect, hc]
        rcases hic : initialize_context d { s with connection := some hh }
            (dictGet m "database") (dictGet m "schema") with ⟨r1, s1, ev1⟩
        have hicc := initialize_context_connected d { s with connection := some hh }
          (dictGet m "database") (dictGet m "schema") hh rfl
        rw [hic] at hicc
        obtain ⟨hs1, hc1⟩ := hicc
        simp only at hs1 hc1
        rw [hs1] at hic
        have hqt := countConnect_query_try_block d { s with connection := some hh } q p
        rcases r1 with e1 | v1
        · have hE : execute_query d s q p init
              = (.error e1, { s with connection := some hh },
                 Event.connectCall s.connection_params :: ev1) := by
            simp [execute_query, hi, lazyStep, hs, hcon, hic]
          rw [hE]
          refine ⟨?_, fun _ => rfl⟩
          show countConnect (Event.connectCall s.connection_params :: ev1) = _
          rw [countConnect_cons, hc1]
          simp [hs]
        · have hE : execute_query d s q p init
              = ((query_try_block d { s with connection := some hh } q p).1,
                 { s with connection := some hh },
                 Event.connectCall s.connection_params
                   :: (ev1 ++ (query_try_block d { s with connection := some hh } q p).2)) := by
            simp [execute_query, hi, lazyStep, hs, hcon, hic]
          rw [hE]
          refine ⟨?_, fun _ => rfl⟩
          show countConnect (Event.connectCall s.connection_params
            :: (ev1 ++ (query_try_block d { s with connection := some hh } q p).2)) = _
          rw [countConnect_cons, countConnect_append, hc1, hqt]
          simp [hs]
    · have hl : lazyStep d s = (.ok (), s, []) := by simp [lazyStep, hs]
      rcases hic : initialize_context d s
          (dictGet m "database") (dictGet m "schema") with ⟨r1, s1, ev1⟩
      have hicc := initialize_context_connected d s
        (dictGet m "database") (dictGet m "schema") h hs
      rw [hic] at hicc
      obtain ⟨hs1, hc1⟩ := hicc
      simp only at hs1 hc1
      rw [hs1] at hic
      have hqt := countConnect_query_try_block d s q p
      rcases r1 with e1 | v1
      · have hE : execute_query d s q p init = (.error e1, s, ev1) := by
          simp [execute_query, hi, hl, hic]
        rw [hE]
        exact ⟨by simp [hs, hc1], fun hn => by simp_all⟩
      · have hE : execute_query d s q p init
            = ((query_try_block d s q p).1, s,
               ev1 ++ (query_try_block d s q p).2) := by
          simp [execute_query, hi, hl, hic]
        rw [hE]
        refine ⟨?_, fun hn => by simp_all⟩
        show countConnect (ev1 ++ (query_try_block d s q p).2) = _
        rw [countConnect_append, hc1, hqt]
        simp [hs]

/-- Witness for `execute_query_lazy_connect` on an Unconnected client. -/
theorem execute_query_lazy_connect_witness :
    countConnect (execute_query dOk sUn "SELECT 1" none none).2.2
      = (if sUn.connection.isNone then 1 else 0) ∧
    (execute_query dOk sUn "SELECT 1" none none).2.2.head?
      = some (.connectCall sUn.connection_params) :=
  ⟨(execute_query_lazy_connect dOk sUn "SELECT 1" none none).1,
   (execute_query_lazy_connect dOk sUn "SELECT 1" none none).2 rfl⟩

/-- C6: when the client is used as a scoped resource and entry succeeds,
entering performs the connect and exiting invokes `disconnect` exactly
once more than the body did — unconditionally, in particular for a body
that raised. -/
theorem with_client_scoped_connect_disconnect (d : Driver) (s : ClientState)
    (body : ClientState → Except String Unit × ClientState × List Event)
    (henter : exceptOk (connect d s).1 = true) :
    countConnect (withClient d s body).2.2
      = countConnect (body ((connect d s).2.1)).2.2 + 1 ∧
    countDisconnect (withClient d s body).2.2
      = countDisconnect (body ((connect d s).2.1)).2.2 + 1 := by
  rcases hc : d.connectResult s.connection_params with e | h
  · exfalso
    simp [connect, hc, exceptOk] at henter
  · have hcon : connect d s
        = (.ok (), { s with connection := some h },
           [.connectCall s.connection_params]) := by
      simp [connect, hc]
    rcases hb : body { s with connection := some h } with ⟨rb, s2, ev2⟩
    rcases hx : disconnect d s2 with ⟨rx, s3, ev3⟩
    have hd := disconnect_trace_counts d s2
    rw [hx] at hd
    simp only at hd
    have hTr : (withClient d s body).2.2
        = Event.connectCall s.connection_params :: (ev2 ++ ev3) := by
      rcases rx with e | u <;>
        simp [withClient, clientEnter, clientExit, hcon, hb, hx]
    rw [hTr, hcon, hb]
    constructor
    · show countConnect (Event.connectCall s.connection_params :: (ev2 ++ ev3)) = _
      rw [countConnect_cons, countConnect_append, hd.2]
      simp [Nat.add_comm]
    · show countDisconnect (Event.connectCall s.connection_params :: (ev2 ++ ev3)) = _
      have hcc : countDisconnect (Event.connectCall s.connection_params :: (ev2 ++ ev3))
          = countDisconnect (ev2 ++ ev3) := by
        simp [countDisconnect, List.filter_cons]
      rw [hcc, countDisconnect_append, hd.1]

/-- Witness for `with_client_scoped_connect_disconnect` with a body that
raises: disconnect still happens exactly once. -/
theorem with_client_scoped_witness :
    countConnect (withClient dOk sUn bodyRaise).2.2
      = countConnect (bodyRaise ((connect dOk sUn).2.1)).2.2 + 1 ∧
    countDisconnect (withClient dOk sUn bodyRaise).2.2
      = countDisconnect (bodyRaise ((connect dOk sUn).2.1)).2.2 + 1 :=
  with_client_scoped_connect_disconnect dOk sUn bodyRaise rfl

/-- C7: with a driver whose close succeeds, `disconnect` never raises,
always leaves the client Unconnected, closes the handle when one exists,
and a second consecutive `disconnect` is a no-op (no driver call) that
keeps the state Unconnected. -/
theorem disconnect_idempotent (d : Driver) (s : ClientState)
    (hclose : ∀ h, d.closeResult h = .ok ()) :
    exceptOk (disconnect d s).1 = true ∧
    (disconnect d s).2.1.connection = none ∧
    (∀ h, s.connection = some h → Event.connClose h ∈ (disconnect d s).2.2) ∧
    disconnect d ((disconnect d s).2.1)
      = (.ok (), (disconnect d s).2.1, [.disconnectCall]) := by
  rcases hs : s.connection with _ | h
  · refine ⟨by simp [disconnect, hs, exceptOk], by simp [disconnect, hs],
      fun h hh => by simp [hs] at hh, by simp [disconnect, hs]⟩
  · refine ⟨by simp [disconnect, hs, hclose, exceptOk], by simp [disconnect, hs, hclose],
      fun h' hh => ?_, by simp [disconnect, hs, hclose]⟩
    have hph : h' = h := (Option.some.inj hh).symm
    subst hph
    simp [disconnect, hs, hclose]

/-- Witness for `disconnect_idempotent` on a Connected client with a
well-behaved driver. -/
theorem disconnect_idempotent_witness :
    exceptOk (disconnect dOk sConn).1 = true ∧
    (disconnect dOk sConn).2.1.connection = none ∧
    Event.connClose 7 ∈ (disconnect dOk sConn).2.2 ∧
    disconnect dOk ((disconnect dOk sConn).2.1)
      = (.ok (), (disconnect dOk sConn).2.1, [.disconnectCall]) :=
  ⟨(disconnect_idempotent dOk sConn (fun _ => rfl)).1,
   (disconnect_idempotent dOk sConn (fun _ => rfl)).2.1,
   (disconnect_idempotent dOk sConn (fun _ => rfl)).2.2.1 7 rfl,
   (disconnect_idempotent dOk sConn (fun _ => rfl)).2.2.2⟩

/-- C8: the constructor always stores the three required fields; an
optional field supplied as `None` is entirely absent from the stored
parameter set (its key does not occur at all), and an optional field
supplied with a non-empty value is stored with that value. -/
theorem init_optional_fields_stored_or_omitted (a u p : String)
    (w db sc r : Option String) :
    (dictGet (snowflakeClientInit a u p w db sc r).connection_params "account" = some a) ∧
    (dictGet (snowflakeClientInit a u p w db sc r).connection_params "user" = some u) ∧
    (dictGet (snowflakeClientInit a u p w db sc r).connection_params "password" = some p) ∧
    (w = none → "warehouse" ∉ (snowflakeClientInit a u p w db sc r).connection_params.map Prod.fst) ∧
    (∀ v, w = some v → v ≠ "" → dictGet (snowflakeClientInit a u p w db sc r).connection_params "warehouse" = some v) ∧
    (db = none → "database" ∉ (snowflakeClientInit a u p w db sc r).connection_params.map Prod.fst) ∧
    (∀ v, db = some v → v ≠ "" → dictGet (snowflakeClientInit a u p w db sc r).connection_params "database" = some v) ∧
    (sc = none → "schema" ∉ (snowflakeClientInit a u p w db sc r).connection_params.map Prod.fst) ∧
    (∀ v, sc = some v → v ≠ "" → dictGet (snowflakeClientInit a u p w db sc r).connection_params "schema" = some v) ∧
    (r = none → "role" ∉ (snowflakeClientInit a u p w db sc r).connection_params.map Prod.fst) ∧
    (∀ v, r = some v → v ≠ "" → dictGet (snowflakeClientInit a u p w db sc r).connection_params "role" = some v) := by
  refine ⟨?_, ?_, ?_, ?_, ?_, ?_, ?_, ?_, ?_, ?_, ?_⟩ <;>
    simp [snowflakeClientInit, dictGet, optField, truthy] <;>
    rcases w with _ | wv <;> rcases db with _ | dv <;>
    rcases sc with _ | sv <;> rcases r with _ | rv <;>
    simp_all [truthy] <;>
    split_ifs <;> simp_all

/-- Witness for `init_optional_fields_stored_or_omitted`: warehouse
supplied and stored, database absent and omitted. -/
theorem init_optional_fields_witness :
    dictGet (snowflakeClientInit "a" "u" "p" (some "wh") none none (some "rl")).connection_params "account" = some "a" ∧
    dictGet (snowflakeClientInit "a" "u" "p" (some "wh") none none (some "rl")).connection_params "warehouse" = some "wh" ∧
    "database" ∉ (snowflakeClientInit "a" "u" "p" (some "wh") none none (some "rl")).connection_params.map Prod.fst :=
  ⟨(init_optional_fields_stored_or_omitted "a" "u" "p" (some "wh") none none (some "rl")).1,
   (init_optional_fields_stored_or_omitted "a" "u" "p" (some "wh") none none (some "rl")).2.2.2.2.1 "wh" rfl (by decide),
   (init_optional_fields_stored_or_omitted "a" "u" "p" (some "wh") none none (some "rl")).2.2.2.2.2.1 rfl⟩

/-- C9: the constructor tests truthiness, not presence — replacing any
optional field supplied as the empty string by an absent field yields the
identical client, so an empty string never reaches the stored parameters. -/
theorem init_empty_string_behaves_as_absent (a u p : String)
    (w db sc r : Option String) :
    snowflakeClientInit a u p
      (if w = some "" then none else w)
      (if db = some "" then none else db)
      (if sc = some "" then none else sc)
      (if r = some "" then none else r)
      = snowflakeClientInit a u p w db sc r := by
  have key : ∀ (k : String) (o : Option String),
      optField k (if o = some "" then none else o) = optField k o := by
    intro k o
    cases o with
    | none => simp
    | some v =>
      by_cases hv : v = ""
      · subst hv; simp [optField, truthy]
      · simp [hv, optField, truthy]
  simp only [snowflakeClientInit, key]

/-- C10: if `close()` raises during `disconnect`, the exception propagates
and the handle reference is not cleared — the client still holds the same
handle — and a subsequent `disconnect` retries the close on that handle. -/
theorem disconnect_close_failure_keeps_handle (d : Driver) (s : ClientState)
    (h : Nat) (e : String) (hs : s.connection = some h)
    (hc : d.closeResult h = .error e) :
    disconnect d s = (.error e, s, [.disconnectCall, .connClose h]) ∧
    Event.connClose h ∈ (disconnect d ((disconnect d s).2.1)).2.2 := by
  have h1 : disconnect d s = (.error e, s, [.disconnectCall, .connClose h]) := by
    simp [disconnect, hs, hc]
  exact ⟨h1, by simp [h1, disconnect, hs, hc]⟩

/-- Witness for `disconnect_close_failure_keeps_handle` at a concrete
failing-close driver and Connected client. -/
theorem disconnect_close_failure_witness :
    disconnect dCloseFail sConn
      = (.error "close failed", sConn, [.disconnectCall, .connClose 7]) ∧
    Event.connClose 7 ∈ (disconnect dCloseFail ((disconnect dCloseFail sConn).2.1)).2.2 :=
  disconnect_close_failure_keeps_handle dCloseFail sConn 7 "close failed" rfl rfl

end SnowflakeClientModel
